import Mathlib

/-!
Shallow embedding of `src/usb2000.py` (pyspectro): a pyqtgraph viewer for
Ocean Optics spectrometers.  The `USB2000` Qt main window holds all mutable
state as instance attributes; we embed those attributes as a record and each
method as a state-transformer.  Device I/O (seabreeze `Spectrometer`) and the
file-save dialog are external effects: each embedded method that performs one
takes the outcome of that effect as an explicit argument.  Intensity values
are numpy float64 in the source; we model them as `ℚ` (exact arithmetic).
Qt button clicks reach a slot only while the button is enabled, so the
enabled flags of the three buttons the code toggles are part of the state and
click events are gated on them.
-/

/-- State of the `USB2000` window: the instance attributes set in
`USB2000.__init__` (lines 42-50 of `src/usb2000.py`) together with the
enabled flags of the connect / start / stop buttons (set in `build_toolbar`,
lines 235-287: connect starts enabled, start and stop start disabled) and
the device-side effective integration time (the value last accepted by
`spec.integration_time_micros`, `none` while no device is bound).
`intensities` is `Option` because `export_data` line 140 tests
`self.intensities is None`; the attribute is initialized to the list `[]`
and only ever reassigned lists, which the `Option` makes explicit. -/
structure USB2000State where
  integration_time_us : Int
  spec_connected : Bool
  device_integration_time : Option Int
  initialized : Bool
  wavelengths : List ℚ
  intensities : Option (List (List ℚ))
  averaged_intensities : List ℚ
  scans_to_average : Int
  capturing : Bool
  connect_button_enabled : Bool
  start_capture_button_enabled : Bool
  stop_capture_button_enabled : Bool
deriving DecidableEq, Repr

/-- The state after `USB2000.__init__` and `build_toolbar`: integration time
20000 µs, depth 4, nothing connected, not capturing, connect button enabled,
start/stop disabled. -/
def initState : USB2000State :=
  { integration_time_us := 20000
    spec_connected := false
    device_integration_time := none
    initialized := false
    wavelengths := []
    intensities := some []
    averaged_intensities := []
    scans_to_average := 4
    capturing := false
    connect_button_enabled := true
    start_capture_button_enabled := false
    stop_capture_button_enabled := false }

/-- The acquisition loop of `read_spectrum` (lines 92-97): iterations
`0, …, n-1`, each one attempt at `self.spec.intensities()`.  `acqs k` is the
outcome of attempt `k`: `some scan` on success (the scan is appended),
`none` when the call raises (the `except` swallows it and the loop goes on).
Returns the list of successful scans in acquisition order together with the
number of attempts made. -/
def scanLoop (acqs : Nat → Option (List ℚ)) : Nat → List (List ℚ) × Nat
  | 0 => ([], 0)
  | n + 1 =>
    let p := scanLoop acqs n
    match acqs n with
    | some v => (p.1 ++ [v], p.2 + 1)
    | none => (p.1, p.2 + 1)

/-- Elementwise mean: `np.mean(rows, axis=0)` (line 101) for the shape the
source feeds it — a nonempty list of equal-length rows (each successful
`spec.intensities()` call returns one reading per detector pixel).  Entry
`i` of the result is the mean over the rows of entry `i`; rows shorter than
the first are padded with 0, a case the call site never produces. -/
def npMeanAxis0 (rows : List (List ℚ)) : List ℚ :=
  match rows with
  | [] => []
  | r :: _ =>
    (List.range r.length).map fun i =>
      ((rows.map fun row => row.getD i 0).sum) / (rows.length : ℚ)

/-- `read_spectrum` (lines 88-103): reset the scan accumulator, make
`scans_to_average` acquisition attempts (Python `range` of a non-positive
int is empty, hence `Int.toNat`), then — only if at least one succeeded —
replace `averaged_intensities` with the elementwise mean of the successes
and clear the accumulator.  With zero successes the guard at line 100 leaves
`averaged_intensities` untouched and the accumulator is the `[]` assigned at
line 90. -/
def read_spectrum (s : USB2000State) (acqs : Nat → Option (List ℚ)) :
    USB2000State :=
  let collected := scanLoop acqs s.scans_to_average.toNat
  if collected.1.length > 0 then
    { s with averaged_intensities := npMeanAxis0 collected.1,
             intensities := some [] }
  else
    { s with intensities := some collected.1 }

/-- The timer slot `update` (lines 62-66), fired every 30 ms: only when both
`capturing` and `initialized` hold does it run `read_spectrum`; the
subsequent `plot.setData` renders externally and changes no modeled state. -/
def update (s : USB2000State) (acqs : Nat → Option (List ℚ)) : USB2000State :=
  if s.capturing then
    if s.initialized then read_spectrum s acqs
    else s
  else s

/-- `init_spectrometer` (lines 68-86), the connect-button slot.  `res` is the
outcome of the device probe: `none` when `Spectrometer.from_first_available`
(or the configuration call) raises — the `except` catches it, only the
status label changes; `some wl` when the probe, the integration-time write
and `spec.wavelengths()` all succeed with calibration `wl`.  With an empty
calibration, `self.wavelengths[0]` at line 74 raises before `initialized`
is set, leaving the buttons untouched; real devices return a nonempty
calibration. -/
def init_spectrometer (s : USB2000State) (res : Option (List ℚ)) :
    USB2000State :=
  match res with
  | none => s
  | some wl =>
    if wl.isEmpty then
      { s with spec_connected := true,
               device_integration_time := some s.integration_time_us,
               wavelengths := wl }
    else
      { s with spec_connected := true,
               device_integration_time := some s.integration_time_us,
               wavelengths := wl,
               initialized := true,
               connect_button_enabled := false,
               start_capture_button_enabled := true }

/-- Python `int(text)` restricted to what this UI can commit: optional
surrounding whitespace, an optional sign, then decimal digits.  (Python also
accepts underscores between digits and non-ASCII decimal digits; the Qt int
validator in front of these fields never lets such text through, so they are
not modeled.)  `none` models `int` raising `ValueError`. -/
def digitsToNat (cs : List Char) : Nat :=
  cs.foldl (fun a c => a * 10 + (c.toNat - 48)) 0

/-- Trimmed character list and sign handling for `pyInt`. -/
def pyInt (t : String) : Option Int :=
  let cs :=
    (((t.toList.dropWhile Char.isWhitespace).reverse.dropWhile
        Char.isWhitespace).reverse)
  match cs with
  | [] => none
  | c :: rest =>
    let p : Int × List Char :=
      if c = '-' then (-1, rest)
      else if c = '+' then (1, rest) else (1, c :: rest)
    if p.2.isEmpty then none
    else if p.2.all Char.isDigit then some (p.1 * (digitsToNat p.2 : Int))
    else none

/-- `update_integration_time` (lines 111-116), the editingFinished slot of
the integration-time field.  The stored `integration_time_us` is assigned
from `int(text)` BEFORE `spec.integration_time_micros` is called; if the
parse raises, nothing changes; if the device call raises (no device bound —
`self.spec` is `None` — or the device rejects the value, `accepts v =
false`), the exception is caught after the store already happened, so the
stored value keeps the new parse while the device keeps its old setting. -/
def update_integration_time (s : USB2000State) (text : String)
    (accepts : Int → Bool) : USB2000State :=
  match pyInt text with
  | none => s
  | some v =>
    let s1 := { s with integration_time_us := v }
    if s1.spec_connected then
      if accepts v then { s1 with device_integration_time := some v }
      else s1
    else s1

/-- `update_scans_to_average` (lines 118-122): store `int(text)` if it
parses, otherwise the caught exception leaves the depth unchanged. -/
def update_scans_to_average (s : USB2000State) (text : String) :
    USB2000State :=
  match pyInt text with
  | none => s
  | some v => { s with scans_to_average := v }

/-- `start_capture` (lines 124-128): set `capturing`, disable the start
button, enable the stop button.  The method body itself has no guard; the
gating is the button's enabled flag (a disabled Qt button emits no click). -/
def start_capture (s : USB2000State) : USB2000State :=
  { s with capturing := true,
           start_capture_button_enabled := false,
           stop_capture_button_enabled := true }

/-- `stop_capture` (lines 130-137): clear `capturing`, enable the start
button, disable the stop button. -/
def stop_capture (s : USB2000State) : USB2000State :=
  { s with capturing := false,
           start_capture_button_enabled := true,
           stop_capture_button_enabled := false }

/-- Decimal digits of a natural number via explicit fuel (the recursion is on
the fuel, which `natStr` sizes to be sufficient). -/
def natStrAux : Nat → Nat → String
  | 0, _ => ""
  | fuel + 1, n =>
    if n < 10 then String.singleton (Char.ofNat (48 + n))
    else natStrAux fuel (n / 10) ++ String.singleton (Char.ofNat (48 + n % 10))

/-- Decimal rendering of a natural number. -/
def natStr (n : Nat) : String := natStrAux (n + 1) n

/-- Fractional decimal digits of the reduced fraction `r / d` (with
`0 ≤ r < d`) by long division, stopping when the expansion terminates or the
fuel (17, more than float64 ever prints) runs out. -/
def fracDigitsAux : Nat → Nat → Nat → String
  | 0, _, _ => ""
  | fuel + 1, r, d =>
    if r = 0 then ""
    else
      String.singleton (Char.ofNat (48 + r * 10 / d)) ++
        fracDigitsAux fuel (r * 10 % d) d

/-- Python `str()` on a float whose value is a short exact decimal (every
value appearing in the spec's examples is one): sign, integer part, a dot,
then the fractional digits, with `.0` when the value is integral — e.g.
`330.0`, `10.5`, `20.25`.  (CPython prints the shortest repr that round
trips; on short exact decimals that is exactly this decimal expansion.) -/
def pyFloatStr (q : ℚ) : String :=
  let sgn := if q.num < 0 then "-" else ""
  let n : Nat := q.num.natAbs
  let fd := fracDigitsAux 17 (n % q.den) q.den
  sgn ++ natStr (n / q.den) ++ "." ++ (if fd = "" then "0" else fd)

/-- One `csv.writer(f).writerow(fields)` call with the default `excel`
dialect: fields joined by `,` and the row terminated by CRLF (the csv
module's `lineterminator` default is `"\r\n"`, and the file is opened with
`newline=""` so nothing translates it).  QUOTE_MINIMAL quoting never fires
on the rows this program writes: no rendered float and neither header word
contains a delimiter, quote or newline. -/
def csvWriterow (fields : List String) : String :=
  String.intercalate "," fields ++ "\r\n"

/-- The bytes `export_data` writes (lines 156-160): the header row, then one
row per index of `wavelengths`, pairing `str(wavelengths[i])` with
`str(averaged_intensities[i])`; `render` stands for Python `str` on the
float values. -/
def exportContent (render : ℚ → String) (wavelengths averaged : List ℚ) :
    String :=
  csvWriterow ["Wavelength", "Intensity"] ++
    String.join ((List.range wavelengths.length).map fun i =>
      csvWriterow [render (wavelengths.getD i 0), render (averaged.getD i 0)])

/-- Result of one `export_data` call. -/
inductive ExportOutcome where
  | noData
  | noPath
  | written (path : String) (content : String)
deriving DecidableEq, Repr

/-- `export_data` (lines 139-162): abort with the no-data status if
`self.intensities is None`; otherwise open the save dialog — `chosen` is the
first component of its return value, `""` when the user cancels — abort with
the no-path status on an empty name; otherwise write the CSV. -/
def export_data (s : USB2000State) (chosen : String) (render : ℚ → String) :
    ExportOutcome :=
  if s.intensities.isNone then ExportOutcome.noData
  else if chosen = "" then ExportOutcome.noPath
  else
    ExportOutcome.written chosen
      (exportContent render s.wavelengths s.averaged_intensities)

/-- Operator-visible events of one session: the three button clicks, the two
field commits (fired by editingFinished with the committed text; the device
response to an integration-time write comes with the event), and the 30 ms
timer tick with the outcomes of the acquisition attempts it may make. -/
inductive UIEvent where
  | clickConnect (res : Option (List ℚ))
  | clickStart
  | clickStop
  | commitIntegrationTime (text : String) (accepts : Int → Bool)
  | commitScans (text : String)
  | tick (acqs : Nat → Option (List ℚ))

/-- Event dispatch: clicks reach their slot only while the button is enabled
(a disabled Qt button emits no `clicked`); field commits and timer ticks are
not gated. -/
def handleEvent (s : USB2000State) : UIEvent → USB2000State
  | UIEvent.clickConnect res =>
    if s.connect_button_enabled then init_spectrometer s res else s
  | UIEvent.clickStart =>
    if s.start_capture_button_enabled then start_capture s else s
  | UIEvent.clickStop =>
    if s.stop_capture_button_enabled then stop_capture s else s
  | UIEvent.commitIntegrationTime text accepts =>
    update_integration_time s text accepts
  | UIEvent.commitScans text => update_scans_to_average s text
  | UIEvent.tick acqs => update s acqs

/-- The spec's capture state machine (§4.3) read off the two flags: `Idle`
before a successful connect, `Connected` once `initialized` and not
capturing, `Capturing` while both hold. -/
inductive CapState where
  | idle
  | connected
  | capturing
deriving DecidableEq, Repr

/-- Abstraction from the Boolean flags to the spec's three states. -/
def captureState (s : USB2000State) : CapState :=
  if s.initialized then
    (if s.capturing then CapState.capturing else CapState.connected)
  else CapState.idle

/-- States reachable from the freshly built window by operator events and
timer ticks. -/
inductive Reachable : USB2000State → Prop
  | init : Reachable initState
  | step (s : USB2000State) (e : UIEvent) :
      Reachable s → Reachable (handleEvent s e)

/-- Inductive invariant tying the button-enabled flags to the capture flags:
the start button is enabled exactly in `Connected`; capturing or a usable
stop button implies a successful connect; the connect button is only enabled
before one; and the scan accumulator is always an actual list (never the
Python `None` that `export_data` tests for). -/
def CoreInv (s : USB2000State) : Prop :=
  s.start_capture_button_enabled = (s.initialized && !s.capturing)
  ∧ (s.capturing = true → s.initialized = true)
  ∧ (s.connect_button_enabled = true → s.initialized = false)
  ∧ (s.stop_capture_button_enabled = true → s.initialized = true)
  ∧ s.intensities.isSome = true

/-- Witness state for the mid-batch cancellation property: a session that
has connected and is capturing (stop button enabled, as `start_capture`
leaves it). -/
def c5State : USB2000State :=
  { initState with capturing := true, initialized := true,
                   stop_capture_button_enabled := true }

/-- Witness state for the integration-time property: a session with a bound
device whose effective integration time is the default 20000 µs. -/
def c6State : USB2000State :=
  { initState with spec_connected := true,
                   device_integration_time := some 20000 }

/-- The committed text parses to a positive integer, or does not parse at
all (so the caught `ValueError` leaves the stored value unchanged). -/
def posText (t : String) : Bool :=
  match pyInt t with
  | some v => decide (0 < v)
  | none => true

/-- Events whose committed field text, when it parses, is positive; every
non-commit event satisfies this vacuously. -/
def PosEvent : UIEvent → Prop
  | UIEvent.commitIntegrationTime t _ => posText t = true
  | UIEvent.commitScans t => posText t = true
  | _ => True

/-! ## Theorems -/
/-- Entry `i` of `np.mean(rows, axis=0)` on a nonempty list of rows of
common length `L` is the sum over the rows of the entries at `i` divided by
the number of rows, and the result again has length `L`. -/
theorem npMeanAxis0_spec (rows : List (List ℚ)) (L : Nat)
    (hne : rows ≠ []) (hL : ∀ row ∈ rows, row.length = L) :
    (npMeanAxis0 rows).length = L ∧
    ∀ i, i < L → (npMeanAxis0 rows).getD i 0 =
      ((rows.map fun row => row.getD i 0).sum) / (rows.length : ℚ) := by
  obtain ⟨r, rest, rfl⟩ := List.exists_cons_of_ne_nil hne
  have hr : r.length = L := hL r (List.mem_cons_self r rest)
  refine ⟨by simp [npMeanAxis0, hr], fun i hi => ?_⟩
  have hlen : i < (npMeanAxis0 (r :: rest)).length := by
    simp [npMeanAxis0, hr, hi]
  rw [List.getD_eq_getElem _ _ hlen]
  simp only [npMeanAxis0]
  rw [List.getElem_map, List.getElem_range]

/-- The loop body runs once per index of `range n`: exactly `n` acquisition
attempts are made, whatever their outcomes. -/
theorem scanLoop_count (acqs : Nat → Option (List ℚ)) (n : Nat) :
    (scanLoop acqs n).2 = n := by
  induction n with
  | zero => rfl
  | succ n ih =>
    simp only [scanLoop]
    cases acqs n <;> simp [ih]

/-- The scans collected by the loop are precisely the successful outcomes
over the attempt indices, in acquisition order. -/
theorem scanLoop_fst (acqs : Nat → Option (List ℚ)) (n : Nat) :
    (scanLoop acqs n).1 = (List.range n).filterMap acqs := by
  induction n with
  | zero => rfl
  | succ n ih =>
    simp only [scanLoop, List.range_succ, List.filterMap_append]
    cases h : acqs n <;> simp [ih, h]

/-- When every attempt below `n` succeeds with scan `f k`, the loop
collects exactly `f 0, …, f (n-1)`. -/
theorem scanLoop_all_success (acqs : Nat → Option (List ℚ))
    (f : Nat → List ℚ) (n : Nat) (h : ∀ k, k < n → acqs k = some (f k)) :
    (scanLoop acqs n).1 = (List.range n).map f := by
  induction n with
  | zero => rfl
  | succ n ih =>
    simp only [scanLoop, List.range_succ, List.map_append]
    rw [h n (Nat.lt_succ_self n)]
    simp [ih fun k hk => h k (Nat.lt_succ_of_lt hk)]

/-- C1.  For every batch in which all `depth` acquisitions succeed (attempt
`k` returns scan `f k`, each scan with the full pixel count `L`), the
averaged spectrum produced by `read_spectrum` has length `L` and, at every
pixel index `i`, exactly the elementwise arithmetic mean of the `depth` raw
scan values at index `i`: their sum divided by `depth` — no normalization,
clipping or outlier rejection. -/
theorem read_spectrum_all_succeed_mean (s : USB2000State)
    (acqs : Nat → Option (List ℚ)) (f : Nat → List ℚ) (L : Nat)
    (hd : 0 < s.scans_to_average.toNat)
    (hacq : ∀ k, k < s.scans_to_average.toNat → acqs k = some (f k))
    (hL : ∀ k, k < s.scans_to_average.toNat → (f k).length = L) :
    ((read_spectrum s acqs).averaged_intensities.length = L) ∧
    ∀ i, i < L →
      (read_spectrum s acqs).averaged_intensities.getD i 0 =
        (((List.range s.scans_to_average.toNat).map
            fun k => (f k).getD i 0).sum) / (s.scans_to_average.toNat : ℚ) := by
  have hfst := scanLoop_all_success acqs f s.scans_to_average.toNat hacq
  have hlen : (scanLoop acqs s.scans_to_average.toNat).1.length =
      s.scans_to_average.toNat := by simp [hfst]
  have hpos : (scanLoop acqs s.scans_to_average.toNat).1.length > 0 := by
    rw [hlen]; exact hd
  have hres : (read_spectrum s acqs).averaged_intensities =
      npMeanAxis0 ((List.range s.scans_to_average.toNat).map f) := by
    simp only [read_spectrum]
    rw [if_pos hpos, hfst]
  have hrows : ∀ row ∈ (List.range s.scans_to_average.toNat).map f,
      row.length = L := by
    intro row hrow
    obtain ⟨k, hk, rfl⟩ := List.mem_map.mp hrow
    exact hL k (List.mem_range.mp hk)
  have hne : (List.range s.scans_to_average.toNat).map f ≠ [] := by
    simp only [ne_eq, List.map_eq_nil_iff, List.range_eq_nil]
    omega
  obtain ⟨h1, h2⟩ := npMeanAxis0_spec _ L hne hrows
  refine ⟨by rw [hres]; exact h1, fun i hi => ?_⟩
  rw [hres, h2 i hi, List.map_map]
  rw [List.length_map, List.length_range]
  rfl

/-- Witness for C1: depth 4, scans `[1, 2]`, `[1, 2]`, `[3, 6]`, `[3, 6]`
— the hypotheses hold and the conclusion is obtained from the theorem. -/
theorem read_spectrum_all_succeed_mean_witness :
    (0 < initState.scans_to_average.toNat) ∧
    (((read_spectrum initState
        (fun k => some (if k < 2 then [1, 2] else [3, 6]))).averaged_intensities.length = 2) ∧
    ∀ i, i < 2 →
      (read_spectrum initState
        (fun k => some (if k < 2 then [1, 2] else [3, 6]))).averaged_intensities.getD i 0 =
        (((List.range initState.scans_to_average.toNat).map
            fun k => ((if k < 2 then [1, 2] else ([3, 6] : List ℚ)).getD i 0)).sum) /
          (initState.scans_to_average.toNat : ℚ)) :=
  ⟨by decide,
   read_spectrum_all_succeed_mean initState _
     (fun k => if k < 2 then [1, 2] else [3, 6]) 2
     (by decide) (fun k _ => rfl) (by decide)⟩

/-- C2.  For every batch in which zero of the `depth` acquisitions succeed,
the averaged spectrum after the batch is identical to the averaged spectrum
before it, and the whole post-state differs from the pre-state only in the
scan accumulator being reset to the empty list — in particular no data is
corrupted, and `read_spectrum` is a total function, so no exception
escapes: the guard at line 100 skips the averaging entirely. -/
theorem read_spectrum_zero_success (s : USB2000State)
    (acqs : Nat → Option (List ℚ))
    (h : ∀ k, k < s.scans_to_average.toNat → acqs k = none) :
    (read_spectrum s acqs).averaged_intensities = s.averaged_intensities ∧
    read_spectrum s acqs = { s with intensities := some [] } := by
  have hnil : (scanLoop acqs s.scans_to_average.toNat).1 = [] := by
    rw [scanLoop_fst, List.filterMap_eq_nil_iff]
    intro a ha
    exact h a (List.mem_range.mp ha)
  have heq : read_spectrum s acqs = { s with intensities := some [] } := by
    simp [read_spectrum, hnil]
  exact ⟨by rw [heq], heq⟩

/-- Witness for C2: a state holding the averaged spectrum `[5, 6]` and a
batch whose four attempts all fail keeps `[5, 6]` unchanged. -/
theorem read_spectrum_zero_success_witness :
    (∀ k, k < ({ initState with averaged_intensities := [5, 6]
               } : USB2000State).scans_to_average.toNat →
        (fun _ : Nat => (none : Option (List ℚ))) k = none) ∧
    ((read_spectrum { initState with averaged_intensities := [5, 6] }
        (fun _ => none)).averaged_intensities =
      ({ initState with averaged_intensities := [5, 6]
       } : USB2000State).averaged_intensities ∧
     read_spectrum { initState with averaged_intensities := [5, 6] }
        (fun _ => none) =
      { { initState with averaged_intensities := [5, 6] } with
          intensities := some [] }) :=
  ⟨fun _ _ => rfl,
   read_spectrum_zero_success { initState with averaged_intensities := [5, 6] }
     (fun _ => none) (fun _ _ => rfl)⟩

/-- C3.  For every batch in which some but not all acquisitions succeed,
every failed acquisition is skipped without aborting the batch — the loop
still makes exactly `depth` attempts — and the averaged result is the
elementwise mean over only the successful scans: at each pixel `i`, the sum
over the successes at `i` divided by the number of successes. -/
theorem read_spectrum_partial_success_mean (s : USB2000State)
    (acqs : Nat → Option (List ℚ)) (L : Nat)
    (hne : (List.range s.scans_to_average.toNat).filterMap acqs ≠ [])
    (hfail : ∃ k, k < s.scans_to_average.toNat ∧ acqs k = none)
    (hL : ∀ r ∈ (List.range s.scans_to_average.toNat).filterMap acqs,
        r.length = L) :
    ((scanLoop acqs s.scans_to_average.toNat).2 = s.scans_to_average.toNat) ∧
    ((read_spectrum s acqs).averaged_intensities.length = L) ∧
    ∀ i, i < L → (read_spectrum s acqs).averaged_intensities.getD i 0 =
      ((((List.range s.scans_to_average.toNat).filterMap acqs).map
          fun r => r.getD i 0).sum) /
        ((((List.range s.scans_to_average.toNat).filterMap acqs).length : ℚ)) := by
  have hfst := scanLoop_fst acqs s.scans_to_average.toNat
  have hpos : (scanLoop acqs s.scans_to_average.toNat).1.length > 0 := by
    rw [hfst]; exact List.length_pos.mpr hne
  have hres : (read_spectrum s acqs).averaged_intensities =
      npMeanAxis0 ((List.range s.scans_to_average.toNat).filterMap acqs) := by
    simp only [read_spectrum]
    rw [if_pos hpos, hfst]
  obtain ⟨h1, h2⟩ := npMeanAxis0_spec _ L hne hL
  exact ⟨scanLoop_count acqs _, by rw [hres]; exact h1,
    fun i hi => by rw [hres]; exact h2 i hi⟩

/-- Witness for C3, the spec's concrete scenario: depth 4, successes
`[1, 2, 3]`, `[3, 4, 5]`, `[5, 6, 7]` and one failure give exactly `depth`
attempts and the averaged result `[3, 4, 5]`. -/
theorem read_spectrum_partial_success_mean_witness :
    ((List.range initState.scans_to_average.toNat).filterMap
        (fun k => if k = 0 then some [1, 2, 3] else if k = 1 then some [3, 4, 5]
                  else if k = 2 then some [5, 6, 7] else none) ≠ []) ∧
    (∃ k, k < initState.scans_to_average.toNat ∧
      (fun k => if k = 0 then some ([1, 2, 3] : List ℚ)
                else if k = 1 then some [3, 4, 5]
                else if k = 2 then some [5, 6, 7] else none) k = none) ∧
    ((scanLoop (fun k => if k = 0 then some [1, 2, 3]
                else if k = 1 then some [3, 4, 5]
                else if k = 2 then some [5, 6, 7] else none)
        initState.scans_to_average.toNat).2 =
      initState.scans_to_average.toNat) ∧
    (read_spectrum initState
      (fun k => if k = 0 then some [1, 2, 3] else if k = 1 then some [3, 4, 5]
                else if k = 2 then some [5, 6, 7] else none)).averaged_intensities
      = [3, 4, 5] := by
  refine ⟨by decide, ⟨3, by decide⟩, ?_, ?_⟩
  · exact (read_spectrum_partial_success_mean initState _ 3 (by decide)
      ⟨3, by decide⟩ (by decide)).1
  · have h1 : scanLoop
        (fun k => if k = 0 then some [1, 2, 3] else if k = 1 then some [3, 4, 5]
                  else if k = 2 then some [5, 6, 7] else none)
        initState.scans_to_average.toNat
        = ([[1, 2, 3], [3, 4, 5], [5, 6, 7]], 4) := rfl
    simp only [read_spectrum, h1]
    norm_num [npMeanAxis0, List.range_succ, List.getD]

/-- C10.  For every tick in which `capturing` is set but the device was
never successfully initialized, the tick performs no acquisition and leaves
the whole state unchanged: `update` acquires only when both the capturing
flag and the initialized flag are set. -/
theorem tick_noop_when_not_initialized (s : USB2000State)
    (acqs : Nat → Option (List ℚ))
    (hcap : s.capturing = true) (hinit : s.initialized = false) :
    handleEvent s (UIEvent.tick acqs) = s := by
  simp [handleEvent, update, hcap, hinit]

/-- Witness for C10: a fresh session with `capturing` forced on but no
device is left untouched by a tick. -/
theorem tick_noop_when_not_initialized_witness :
    (({ initState with capturing := true } : USB2000State).capturing = true) ∧
    (({ initState with capturing := true } : USB2000State).initialized
      = false) ∧
    handleEvent { initState with capturing := true }
        (UIEvent.tick fun _ => some [1]) =
      { initState with capturing := true } :=
  ⟨rfl, rfl,
   tick_noop_when_not_initialized { initState with capturing := true }
     (fun _ => some [1]) rfl rfl⟩

/-- A batch never touches the stop button's enabled flag. -/
theorem read_spectrum_stop_btn (s : USB2000State)
    (acqs : Nat → Option (List ℚ)) :
    (read_spectrum s acqs).stop_capture_button_enabled =
      s.stop_capture_button_enabled := by
  simp only [read_spectrum]
  split <;> rfl

/-- C5.  A `stop_capture` issued against an in-flight batch cannot truncate
it: events are handled to completion one at a time (the Qt timer slot runs
read_spectrum synchronously), so the tick that starts a batch performs
exactly `depth` acquisition attempts, the subsequent stop click leaves the
batch's averaged result untouched, and only the NEXT tick is prevented
from starting a new batch (it is a no-op on the stopped state). -/
theorem stop_capture_mid_batch (s : USB2000State)
    (acqs acqs2 : Nat → Option (List ℚ))
    (hcap : s.capturing = true) (hinit : s.initialized = true)
    (hstop : s.stop_capture_button_enabled = true)
    (hd : 0 ≤ s.scans_to_average) :
    handleEvent s (UIEvent.tick acqs) = read_spectrum s acqs ∧
    ((scanLoop acqs s.scans_to_average.toNat).2 : Int) = s.scans_to_average ∧
    (handleEvent (handleEvent s (UIEvent.tick acqs))
        UIEvent.clickStop).averaged_intensities =
      (handleEvent s (UIEvent.tick acqs)).averaged_intensities ∧
    handleEvent (handleEvent (handleEvent s (UIEvent.tick acqs))
        UIEvent.clickStop) (UIEvent.tick acqs2) =
      handleEvent (handleEvent s (UIEvent.tick acqs)) UIEvent.clickStop := by
  have htick : handleEvent s (UIEvent.tick acqs) = read_spectrum s acqs := by
    simp [handleEvent, update, hcap, hinit]
  have hstop2 : (read_spectrum s acqs).stop_capture_button_enabled = true := by
    rw [read_spectrum_stop_btn]; exact hstop
  have hstopev : handleEvent (read_spectrum s acqs) UIEvent.clickStop =
      stop_capture (read_spectrum s acqs) := by
    simp [handleEvent, hstop2]
  refine ⟨htick, ?_, ?_, ?_⟩
  · rw [scanLoop_count, Int.toNat_of_nonneg hd]
  · rw [htick, hstopev]; rfl
  · rw [htick, hstopev]
    simp [handleEvent, update, stop_capture]

/-- Witness for C5: a capturing session with depth 4 completes its batch
(4 attempts) and the tick equals `read_spectrum`. -/
theorem stop_capture_mid_batch_witness :
    (c5State.capturing = true ∧ c5State.stop_capture_button_enabled = true) ∧
    (handleEvent c5State (UIEvent.tick fun _ => some [7]) =
      read_spectrum c5State (fun _ => some [7])) ∧
    ((scanLoop (fun _ => (some [7] : Option (List ℚ)))
        c5State.scans_to_average.toNat).2 : Int) = c5State.scans_to_average := by
  have h := stop_capture_mid_batch c5State
    (fun _ => some [7]) (fun _ => some [7]) rfl rfl rfl (by decide)
  exact ⟨⟨rfl, rfl⟩, h.1, h.2.1⟩

/-- The freshly built window satisfies the core invariant. -/
theorem coreInv_initState : CoreInv initState := by
  refine ⟨rfl, ?_, fun _ => rfl, ?_, rfl⟩ <;> intro h <;> cases h

/-- A batch preserves the core invariant: it only writes the accumulator
(always to a list) and the averaged spectrum. -/
theorem coreInv_read_spectrum (s : USB2000State)
    (acqs : Nat → Option (List ℚ)) (h : CoreInv s) :
    CoreInv (read_spectrum s acqs) := by
  obtain ⟨h1, h2, h3, h4, h5⟩ := h
  simp only [read_spectrum]
  split <;> exact ⟨h1, h2, h3, h4, rfl⟩

/-- Every operator event and every tick preserves the core invariant. -/
theorem coreInv_step (s : USB2000State) (e : UIEvent) (h : CoreInv s) :
    CoreInv (handleEvent s e) := by
  obtain ⟨h1, h2, h3, h4, h5⟩ := h
  cases e with
  | clickConnect res =>
    cases hc : s.connect_button_enabled with
    | false => simp only [handleEvent, hc, Bool.false_eq_true, if_false]
               exact ⟨h1, h2, h3, h4, h5⟩
    | true =>
      have hni : s.initialized = false := h3 hc
      have hnc : s.capturing = false := by
        cases hcap : s.capturing
        · rfl
        · rw [h2 hcap] at hni; cases hni
      simp only [handleEvent, hc, if_true]
      cases res with
      | none => exact ⟨h1, h2, h3, h4, h5⟩
      | some wl =>
        simp only [init_spectrometer]
        split
        · exact ⟨h1, h2, h3, h4, h5⟩
        · refine ⟨?_, fun _ => rfl, ?_, fun _ => rfl, h5⟩
          · show true = (true && !s.capturing)
            rw [hnc]
            rfl
          · intro hh
            simp at hh
  | clickStart =>
    cases hs : s.start_capture_button_enabled with
    | false => simp only [handleEvent, hs, Bool.false_eq_true, if_false]
               exact ⟨h1, h2, h3, h4, h5⟩
    | true =>
      have hic : s.initialized = true ∧ s.capturing = false := by
        rw [hs] at h1
        constructor
        · cases hi : s.initialized
          · rw [hi] at h1; cases h1
          · rfl
        · cases hcap : s.capturing
          · rfl
          · rw [hcap] at h1; simp at h1
      simp only [handleEvent, hs, if_true, start_capture]
      refine ⟨?_, fun _ => hic.1, ?_, fun _ => hic.1, h5⟩
      · show false = (s.initialized && !true)
        simp
      · intro hh
        have h6 := h3 hh
        rw [hic.1] at h6
        cases h6
  | clickStop =>
    cases hs : s.stop_capture_button_enabled with
    | false => simp only [handleEvent, hs, Bool.false_eq_true, if_false]
               exact ⟨h1, h2, h3, h4, h5⟩
    | true =>
      have hi : s.initialized = true := h4 hs
      simp only [handleEvent, hs, if_true, stop_capture]
      refine ⟨?_, fun _ => hi, ?_, ?_, h5⟩
      · show true = (s.initialized && !false)
        rw [hi]
        rfl
      · intro hh
        have h6 := h3 hh
        rw [hi] at h6
        cases h6
      · intro hh
        simp at hh
  | commitIntegrationTime text accepts =>
    simp only [handleEvent, update_integration_time]
    cases pyInt text with
    | none => exact ⟨h1, h2, h3, h4, h5⟩
    | some v =>
      dsimp only
      split_ifs <;> exact ⟨h1, h2, h3, h4, h5⟩
  | commitScans text =>
    simp only [handleEvent, update_scans_to_average]
    cases pyInt text with
    | none => exact ⟨h1, h2, h3, h4, h5⟩
    | some v => exact ⟨h1, h2, h3, h4, h5⟩
  | tick acqs =>
    simp only [handleEvent, update]
    split
    · split
      · exact coreInv_read_spectrum s acqs ⟨h1, h2, h3, h4, h5⟩
      · exact ⟨h1, h2, h3, h4, h5⟩
    · exact ⟨h1, h2, h3, h4, h5⟩

/-- The core invariant holds in every reachable state. -/
theorem reachable_coreInv (s : USB2000State) (h : Reachable s) : CoreInv s := by
  induction h with
  | init => exact coreInv_initState
  | step s e _ ih => exact coreInv_step s e ih

/-- C4.  In every reachable state whose capture state is not `Connected`
(in particular the initial `Idle` state), invoking start-capture is
rejected — the start button is disabled, so the click changes nothing — and
from `Connected` it is accepted and moves the machine to `Capturing`. -/
theorem start_capture_only_from_connected (s : USB2000State)
    (h : Reachable s) :
    (captureState s ≠ CapState.connected →
      handleEvent s UIEvent.clickStart = s) ∧
    (captureState s = CapState.connected →
      captureState (handleEvent s UIEvent.clickStart) = CapState.capturing) := by
  obtain ⟨h1, h2, h3, h4, h5⟩ := reachable_coreInv s h
  constructor
  · intro hne
    have hoff : s.start_capture_button_enabled = false := by
      cases hi : s.initialized
      · rw [h1, hi]; rfl
      · cases hcap : s.capturing
        · exact absurd (by simp [captureState, hi, hcap]) hne
        · rw [h1, hi, hcap]; rfl
    simp [handleEvent, hoff]
  · intro hconn
    cases hi : s.initialized
    · simp [captureState, hi] at hconn
    · cases hcap : s.capturing
      · have hon : s.start_capture_button_enabled = true := by
          rw [h1, hi, hcap]; rfl
        simp [handleEvent, hon, start_capture, captureState, hi]
      · simp [captureState, hi, hcap] at hconn

/-- Witness for C4: the initial state is reachable and `Idle`, and the
start-capture click leaves it exactly unchanged. -/
theorem start_capture_only_from_connected_witness :
    (Reachable initState ∧ captureState initState ≠ CapState.connected) ∧
    handleEvent initState UIEvent.clickStart = initState :=
  ⟨⟨Reachable.init, by decide⟩,
   (start_capture_only_from_connected initState Reachable.init).1 (by decide)⟩

/-- C7 (demonstrating the code bug).  The no-data guard of `export_data`
tests `self.intensities is None`, but in every reachable state that
attribute is an actual list (it is initialized to `[]` and only ever
reassigned lists), so the guard can never fire; concretely, exporting from
the initial state — no spectrum was ever acquired — with a chosen path does
not fail with the no-data error and writes a header-only CSV file. -/
theorem export_no_data_check_never_fires :
    (∀ s, Reachable s → s.intensities.isSome = true) ∧
    export_data initState "out.csv" pyFloatStr =
      ExportOutcome.written "out.csv" "Wavelength,Intensity\r\n" :=
  ⟨fun s h => (reachable_coreInv s h).2.2.2.2, by decide⟩

/-- Witness for C7: the initial state is reachable and its accumulator is a
list, so the dead-guard premise is inhabited. -/
theorem export_no_data_check_never_fires_witness :
    Reachable initState ∧ initState.intensities.isSome = true :=
  ⟨Reachable.init, export_no_data_check_never_fires.1 initState Reachable.init⟩

/-- C6 (as amended).  Committing the input `"50000"` with a device bound
parses to 50000; if the device accepts, both the stored value and the
device-effective integration time become 50000 µs; if the device rejects
(`DeviceConfigError`), the device keeps its previously configured value,
but the stored `integration_time_us` is nevertheless updated to 50000,
because the assignment at line 113 precedes the device call at line 114. -/
theorem update_integration_time_50000 (s : USB2000State)
    (accepts : Int → Bool) (hconn : s.spec_connected = true) :
    (accepts 50000 = true →
      (update_integration_time s "50000" accepts).integration_time_us = 50000 ∧
      (update_integration_time s "50000" accepts).device_integration_time =
        some 50000) ∧
    (accepts 50000 = false →
      (update_integration_time s "50000" accepts).integration_time_us = 50000 ∧
      (update_integration_time s "50000" accepts).device_integration_time =
        s.device_integration_time) := by
  have hp : pyInt "50000" = some 50000 := by decide
  constructor <;> intro ha <;>
    simp [update_integration_time, hp, hconn, ha]

/-- Witness for C6: from the connected default state with an accepting
device, the commit stores and applies 50000 µs. -/
theorem update_integration_time_50000_witness :
    c6State.spec_connected = true ∧
    (((fun _ : Int => true) 50000 = true →
      (update_integration_time c6State "50000" fun _ => true).integration_time_us
        = 50000 ∧
      (update_integration_time c6State "50000" fun _ => true).device_integration_time
        = some 50000) ∧
     ((fun _ : Int => true) 50000 = false →
      (update_integration_time c6State "50000" fun _ => true).integration_time_us
        = 50000 ∧
      (update_integration_time c6State "50000" fun _ => true).device_integration_time
        = c6State.device_integration_time)) :=
  ⟨rfl, update_integration_time_50000 c6State (fun _ => true) rfl⟩

/-- Counterexample for C6 as stated: from a connected state storing
20000 µs, committing `"50000"` against a rejecting device leaves the device
at 20000 µs but changes the STORED value to 50000 — the claim that the
stored value is unchanged on failure is false. -/
theorem integration_time_stored_not_retained_on_reject :
    c6State.integration_time_us = 20000 ∧
    (update_integration_time c6State "50000" fun _ => false).integration_time_us
      = 50000 ∧
    (update_integration_time c6State "50000" fun _ => false).device_integration_time
      = some 20000 := by decide

/-- Single-step preservation of positivity of the two configured values:
no event changes them except a field commit, and a commit whose text
parses positively (or not at all) keeps them positive. -/
theorem pos_step (s : USB2000State) (e : UIEvent) (hp : PosEvent e)
    (h1 : 0 < s.scans_to_average) (h2 : 0 < s.integration_time_us) :
    0 < (handleEvent s e).scans_to_average ∧
    0 < (handleEvent s e).integration_time_us := by
  cases e with
  | clickConnect res =>
    simp only [handleEvent]
    split
    · cases res with
      | none => exact ⟨h1, h2⟩
      | some wl =>
        simp only [init_spectrometer]
        split <;> exact ⟨h1, h2⟩
    · exact ⟨h1, h2⟩
  | clickStart =>
    simp only [handleEvent]
    split <;> exact ⟨h1, h2⟩
  | clickStop =>
    simp only [handleEvent]
    split <;> exact ⟨h1, h2⟩
  | commitIntegrationTime t accepts =>
    simp only [handleEvent, update_integration_time]
    cases hpi : pyInt t with
    | none => exact ⟨h1, h2⟩
    | some v =>
      have hv : 0 < v := by
        simp only [PosEvent, posText, hpi] at hp
        exact of_decide_eq_true hp
      dsimp only
      split_ifs <;> exact ⟨h1, hv⟩
  | commitScans t =>
    simp only [handleEvent, update_scans_to_average]
    cases hpi : pyInt t with
    | none => exact ⟨h1, h2⟩
    | some v =>
      have hv : 0 < v := by
        simp only [PosEvent, posText, hpi] at hp
        exact of_decide_eq_true hp
      exact ⟨hv, h2⟩
  | tick acqs =>
    simp only [handleEvent, update]
    split
    · split
      · simp only [read_spectrum]
        split <;> exact ⟨h1, h2⟩
      · exact ⟨h1, h2⟩
    · exact ⟨h1, h2⟩

/-- C9 (as amended).  Starting from the defaults (depth 4, 20000 µs), after
any sequence of operations the configured averaging depth and integration
time are positive integers PROVIDED every committed field text that parses
as an integer parses to a positive one; the code itself never enforces
positivity. -/
theorem config_positive_with_positive_commits (evs : List UIEvent)
    (h : ∀ e ∈ evs, PosEvent e) :
    0 < (evs.foldl handleEvent initState).scans_to_average ∧
    0 < (evs.foldl handleEvent initState).integration_time_us := by
  suffices haux : ∀ (l : List UIEvent) (s : USB2000State),
      (∀ e ∈ l, PosEvent e) →
      0 < s.scans_to_average → 0 < s.integration_time_us →
      0 < (l.foldl handleEvent s).scans_to_average ∧
      0 < (l.foldl handleEvent s).integration_time_us by
    exact haux evs initState h (by decide) (by decide)
  intro l
  induction l with
  | nil => exact fun s _ hs hi => ⟨hs, hi⟩
  | cons e l ih =>
    intro s hl hs hi
    have hstep := pos_step s e (hl e (List.mem_cons_self e l)) hs hi
    exact ih (handleEvent s e)
      (fun x hx => hl x (List.mem_cons_of_mem e hx)) hstep.1 hstep.2

/-- Witness for C9: the trace committing `"7"` as the scan depth satisfies
the positivity side condition and ends with both values positive. -/
theorem config_positive_with_positive_commits_witness :
    (∀ e ∈ [UIEvent.commitScans "7"], PosEvent e) ∧
    (0 < ([UIEvent.commitScans "7"].foldl
        handleEvent initState).scans_to_average ∧
     0 < ([UIEvent.commitScans "7"].foldl
        handleEvent initState).integration_time_us) := by
  have hall : ∀ e ∈ [UIEvent.commitScans "7"], PosEvent e := by
    intro e he
    rw [List.mem_singleton] at he
    subst he
    show posText "7" = true
    decide
  exact ⟨hall, config_positive_with_positive_commits
    [UIEvent.commitScans "7"] hall⟩

/-- Counterexample for C9 as stated: the scans-to-average field accepts the
text `"0"` (`QIntValidator` has no lower bound), and committing it from the
default state sets the averaging depth to 0, which is not positive. -/
theorem commit_zero_scans_counterexample :
    (handleEvent initState (UIEvent.commitScans "0")).scans_to_average = 0 ∧
    ¬(0 < (handleEvent initState
        (UIEvent.commitScans "0")).scans_to_average) := by decide

/-- A two-field csv row is the two fields joined by a comma and terminated
by CRLF. -/
theorem csvWriterow_pair (a b : String) :
    csvWriterow [a, b] = a ++ "," ++ b ++ "\r\n" := rfl

/-- Counterexample for C8 as stated: the export of wavelengths
`[330, 331]` with intensities `[10.5, 20.25]` is NOT the three claimed
LF-terminated lines, because `csv.writer`'s default line terminator is
CRLF and the file is opened with `newline=""`. -/
theorem export_csv_lf_counterexample :
    exportContent pyFloatStr [330, 331] [mkRat 21 2, mkRat 81 4] ≠
      "Wavelength,Intensity\n330.0,10.5\n331.0,20.25\n" ∧
    (mkRat 21 2 : ℚ) = 10.5 ∧ (mkRat 81 4 : ℚ) = 20.25 :=
  ⟨by decide, by norm_num [Rat.mkRat_eq_div], by norm_num [Rat.mkRat_eq_div]⟩

/-- C8 (as amended).  Every successful export writes the header row
`Wavelength,Intensity` followed by exactly one data row per calibration
index pairing `str(wavelengths[i])` with `str(averaged_intensities[i])`,
with no blank interleaved lines — but each line is terminated by CRLF (the
csv module's default), not by a single LF; in particular wavelengths
`[330, 331]` with intensities `[10.5, 20.25]` produce exactly
`"Wavelength,Intensity\\r\\n330.0,10.5\\r\\n331.0,20.25\\r\\n"`. -/
theorem export_csv_crlf_rows :
    (∀ (render : ℚ → String) (wl ai : List ℚ),
      exportContent render wl ai =
        String.join ((["Wavelength,Intensity"] ++
          (List.range wl.length).map fun i =>
            render (wl.getD i 0) ++ "," ++ render (ai.getD i 0)).map
          fun line => line ++ "\r\n")) ∧
    exportContent pyFloatStr [330, 331] [mkRat 21 2, mkRat 81 4] =
      "Wavelength,Intensity\r\n330.0,10.5\r\n331.0,20.25\r\n" ∧
    (mkRat 21 2 : ℚ) = 10.5 ∧ (mkRat 81 4 : ℚ) = 20.25 := by
  refine ⟨?_, by decide, by norm_num [Rat.mkRat_eq_div],
    by norm_num [Rat.mkRat_eq_div]⟩
  intro render wl ai
  simp only [exportContent, csvWriterow_pair, List.map_append, List.map_cons,
    List.map_nil]
  simp [String.ext_iff, String.join_eq, String.data_append, List.map_map,
    Function.comp]
  rfl
